import Mathlib

/-!
Verification of the client-side proxy core in src/cpp/src/Ice/Proxy.cpp.

The development shallowly embeds the parts of the file the claims are about:
the immutable Reference value and the proxy derivation operations (ice_identity,
ice_facet, ice_context, the timeout derivations, ...), the two-way precondition
checks of both language mappings, the retry classification in __handleException,
the cached request-handler install rules (__setRequestHandler and
__updateRequestHandler), demarshalling of the generic invoke and of the built-in
operations (user-exception wrapping), checkedCastImpl, and the four proxy
identity comparators.

Modelling conventions:
- A proxy handle is represented by the Reference it wraps; "returns the same
  proxy handle" versus "returns a fresh proxy" is made observable through the
  DeriveResult type (constructor `self` is CONST_POINTER_CAST_OBJECT_PRX,
  `fresh r` is a newly allocated proxy set up with Reference r).
- Endpoints, router/locator and request-handler objects are abstracted to
  numeric handles; pointer equality on them is equality of handles.
- Reference.cpp is not part of the source fragment, so the Reference mutators
  (changeX) are modelled from the spec: a mutator returns a Reference equal to
  the original exactly when the new value equals the current one, and the spec
  requires equal results to be the very same Reference, so structural equality
  of the model coincides with the pointer equality tests of the source.
- C++ exceptions become Except / explicit outcome values; each embedded
  function is executable.
-/

deriving instance DecidableEq for Except

/-- Ice::Identity, a (name, category) pair of strings. -/
structure Identity where
  name : String
  category : String
deriving DecidableEq

/-- IceInternal::Reference::Mode. -/
inductive RefMode
  | ModeTwoway
  | ModeOneway
  | ModeBatchOneway
  | ModeDatagram
  | ModeBatchDatagram
deriving DecidableEq

/-- Ice::OperationMode. -/
inductive OperationMode
  | Normal
  | Nonmutating
  | Idempotent
deriving DecidableEq

/-- Ice::EndpointSelectionType. -/
inductive EndpointSelectionType
  | Random
  | Ordered
deriving DecidableEq

/-- Ice::EncodingVersion, a (major, minor) byte pair. -/
structure EncodingVersion where
  major : Nat
  minor : Nat
deriving DecidableEq

/-- Ice::Context, an ordered mapping of string keys to string values. -/
abbrev Context := List (String × String)

/-- The immutable Reference descriptor behind a proxy (src/cpp/src/Ice/Proxy.cpp
reads it through getIdentity, getFacet, getMode, ...; the attribute list is the
data-model table of the spec). Endpoint descriptors and the router/locator info
collaborators are abstracted to Nat handles. -/
structure Reference where
  identity : Identity
  facet : String
  mode : RefMode
  secure : Bool
  preferSecure : Bool
  encoding : EncodingVersion
  compress : Option Bool
  context : Context
  endpoints : List Nat
  adapterId : String
  routerInfo : Option Nat
  locatorInfo : Option Nat
  cacheConnection : Bool
  collocationOptimized : Bool
  endpointSelection : EndpointSelectionType
  locatorCacheTimeout : Int
  invocationTimeout : Int
  timeout : Int
  connectionId : String
deriving DecidableEq

/-- Modelled from the spec: Reference::changeIdentity (Reference.cpp is not in
the source fragment). A mutator returns a new Reference sharing all other
attributes; one returning an equal Reference returns the same Reference. -/
def Reference.changeIdentity (r : Reference) (newIdentity : Identity) : Reference :=
  { r with identity := newIdentity }

/-- Modelled from the spec: Reference::changeContext. -/
def Reference.changeContext (r : Reference) (newContext : Context) : Reference :=
  { r with context := newContext }

/-- Modelled from the spec: Reference::changeFacet. -/
def Reference.changeFacet (r : Reference) (newFacet : String) : Reference :=
  { r with facet := newFacet }

/-- Modelled from the spec: Reference::changeAdapterId. -/
def Reference.changeAdapterId (r : Reference) (newAdapterId : String) : Reference :=
  { r with adapterId := newAdapterId }

/-- Modelled from the spec: Reference::changeEndpoints. -/
def Reference.changeEndpoints (r : Reference) (newEndpoints : List Nat) : Reference :=
  { r with endpoints := newEndpoints }

/-- Modelled from the spec: Reference::changeLocatorCacheTimeout. -/
def Reference.changeLocatorCacheTimeout (r : Reference) (t : Int) : Reference :=
  { r with locatorCacheTimeout := t }

/-- Modelled from the spec: Reference::changeCacheConnection. -/
def Reference.changeCacheConnection (r : Reference) (b : Bool) : Reference :=
  { r with cacheConnection := b }

/-- Modelled from the spec: Reference::changeEndpointSelection. -/
def Reference.changeEndpointSelection (r : Reference) (t : EndpointSelectionType) : Reference :=
  { r with endpointSelection := t }

/-- Modelled from the spec: Reference::changeSecure. -/
def Reference.changeSecure (r : Reference) (b : Bool) : Reference :=
  { r with secure := b }

/-- Modelled from the spec: Reference::changeEncoding. -/
def Reference.changeEncoding (r : Reference) (e : EncodingVersion) : Reference :=
  { r with encoding := e }

/-- Modelled from the spec: Reference::changePreferSecure. -/
def Reference.changePreferSecure (r : Reference) (b : Bool) : Reference :=
  { r with preferSecure := b }

/-- Modelled from the spec: Reference::changeRouter stores the resolved router
info handle (possibly null); the info handle is identified with the router
argument in this model. -/
def Reference.changeRouter (r : Reference) (router : Option Nat) : Reference :=
  { r with routerInfo := router }

/-- Modelled from the spec: Reference::changeLocator, as for changeRouter. -/
def Reference.changeLocator (r : Reference) (locator : Option Nat) : Reference :=
  { r with locatorInfo := locator }

/-- Modelled from the spec: Reference::changeCollocationOptimized. -/
def Reference.changeCollocationOptimized (r : Reference) (b : Bool) : Reference :=
  { r with collocationOptimized := b }

/-- Modelled from the spec: Reference::changeInvocationTimeout. -/
def Reference.changeInvocationTimeout (r : Reference) (t : Int) : Reference :=
  { r with invocationTimeout := t }

/-- Modelled from the spec: Reference::changeMode. -/
def Reference.changeMode (r : Reference) (m : RefMode) : Reference :=
  { r with mode := m }

/-- Modelled from the spec: Reference::changeCompress stores the compression
override. -/
def Reference.changeCompress (r : Reference) (b : Bool) : Reference :=
  { r with compress := some b }

/-- Modelled from the spec: Reference::changeTimeout (connection timeout). -/
def Reference.changeTimeout (r : Reference) (t : Int) : Reference :=
  { r with timeout := t }

/-- Modelled from the spec: Reference::changeConnectionId. -/
def Reference.changeConnectionId (r : Reference) (id : String) : Reference :=
  { r with connectionId := id }

/-- Result of a proxy derivation: the source either returns the same proxy
handle (CONST_POINTER_CAST_OBJECT_PRX) or allocates a fresh proxy and sets it
up with the derived Reference. -/
inductive DeriveResult
  | self
  | fresh (r : Reference)
deriving DecidableEq

/-- The error kinds the embedded operations surface (Ice::IllegalIdentityException,
IceUtil::IllegalArgumentException, Ice::TwowayOnlyException,
Ice::UnknownUserException, Ice::FacetNotExistException, other exceptions by an
abstract code). -/
inductive IceErr
  | illegalIdentity
  | illegalArgument (msg : String)
  | twowayOnly (op : String)
  | unknownUserException (id : String)
  | facetNotExist
  | otherErr (code : Nat)
deriving DecidableEq

/-- ice_getIdentity (Proxy.cpp line 614). -/
def ice_getIdentity (r : Reference) : Identity :=
  r.identity

/-- ice_getContext (line 643): getContext()->getValue(). -/
def ice_getContext (r : Reference) : Context :=
  r.context

/-- ice_getFacet (line 657). -/
def ice_getFacet (r : Reference) : String :=
  r.facet

/-- ice_getAdapterId (line 682). -/
def ice_getAdapterId (r : Reference) : String :=
  r.adapterId

/-- ice_getEndpoints (line 703), with endpoint descriptors abstracted. -/
def ice_getEndpoints (r : Reference) : List Nat :=
  r.endpoints

/-- ice_getLocatorCacheTimeout (line 736). -/
def ice_getLocatorCacheTimeout (r : Reference) : Int :=
  r.locatorCacheTimeout

/-- ice_isConnectionCached (line 763). -/
def ice_isConnectionCached (r : Reference) : Bool :=
  r.cacheConnection

/-- ice_getEndpointSelection (line 784). -/
def ice_getEndpointSelection (r : Reference) : EndpointSelectionType :=
  r.endpointSelection

/-- ice_isSecure (line 805). -/
def ice_isSecure (r : Reference) : Bool :=
  r.secure

/-- ice_getEncodingVersion (line 826). -/
def ice_getEncodingVersion (r : Reference) : EncodingVersion :=
  r.encoding

/-- ice_isPreferSecure (line 847). -/
def ice_isPreferSecure (r : Reference) : Bool :=
  r.preferSecure

/-- ice_getRouter (line 868): the router of the stored router info, null when
none; in this model the info handle stands for the router. -/
def ice_getRouter (r : Reference) : Option Nat :=
  r.routerInfo

/-- ice_getLocator (line 895). -/
def ice_getLocator (r : Reference) : Option Nat :=
  r.locatorInfo

/-- ice_isCollocationOptimized (line 922). -/
def ice_isCollocationOptimized (r : Reference) : Bool :=
  r.collocationOptimized

/-- ice_getInvocationTimeout (line 943). -/
def ice_getInvocationTimeout (r : Reference) : Int :=
  r.invocationTimeout

/-- ice_isTwoway (line 985). -/
def ice_isTwoway (r : Reference) : Bool :=
  r.mode == RefMode.ModeTwoway

/-- ice_getConnectionId (line 1129). -/
def ice_getConnectionId (r : Reference) : String :=
  r.connectionId

/-- ice_identity (lines 620-641): reject an empty name with IllegalIdentity,
return the same handle when the identity is unchanged, otherwise a fresh proxy
wrapping changeIdentity. -/
def ice_identity (r : Reference) (newIdentity : Identity) : Except IceErr DeriveResult :=
  if newIdentity.name = "" then
    .error .illegalIdentity
  else if newIdentity = r.identity then
    .ok .self
  else
    .ok (.fresh (r.changeIdentity newIdentity))

/-- ice_context (lines 649-655): always allocates a fresh proxy (__newInstance)
and sets it up with changeContext, with no sharing test. -/
def ice_context (r : Reference) (newContext : Context) : DeriveResult :=
  .fresh (r.changeContext newContext)

/-- ice_facet (lines 663-680). -/
def ice_facet (r : Reference) (newFacet : String) : DeriveResult :=
  if newFacet = r.facet then .self else .fresh (r.changeFacet newFacet)

/-- ice_adapterId (lines 688-701). -/
def ice_adapterId (r : Reference) (newAdapterId : String) : DeriveResult :=
  if newAdapterId = r.adapterId then .self else .fresh (r.changeAdapterId newAdapterId)

/-- ice_endpoints (lines 715-734). -/
def ice_endpoints (r : Reference) (newEndpoints : List Nat) : DeriveResult :=
  if newEndpoints = r.endpoints then .self else .fresh (r.changeEndpoints newEndpoints)

/-- ice_locatorCacheTimeout (lines 742-761): IllegalArgument below -1, then the
sharing test. -/
def ice_locatorCacheTimeout (r : Reference) (newTimeout : Int) : Except IceErr DeriveResult :=
  if newTimeout < -1 then
    .error (.illegalArgument ("invalid value passed to ice_locatorCacheTimeout: " ++ toString newTimeout))
  else if newTimeout = r.locatorCacheTimeout then
    .ok .self
  else
    .ok (.fresh (r.changeLocatorCacheTimeout newTimeout))

/-- ice_connectionCached (lines 769-782). -/
def ice_connectionCached (r : Reference) (newCache : Bool) : DeriveResult :=
  if newCache = r.cacheConnection then .self else .fresh (r.changeCacheConnection newCache)

/-- ice_endpointSelection (lines 790-803). -/
def ice_endpointSelection (r : Reference) (newType : EndpointSelectionType) : DeriveResult :=
  if newType = r.endpointSelection then .self else .fresh (r.changeEndpointSelection newType)

/-- ice_secure (lines 811-824). -/
def ice_secure (r : Reference) (b : Bool) : DeriveResult :=
  if b = r.secure then .self else .fresh (r.changeSecure b)

/-- ice_encodingVersion (lines 832-845). -/
def ice_encodingVersion (r : Reference) (encoding : EncodingVersion) : DeriveResult :=
  if encoding = r.encoding then .self else .fresh (r.changeEncoding encoding)

/-- ice_preferSecure (lines 853-866). -/
def ice_preferSecure (r : Reference) (b : Bool) : DeriveResult :=
  if b = r.preferSecure then .self else .fresh (r.changePreferSecure b)

/-- ice_router (lines 879-893): the sharing test compares the Reference
returned by changeRouter with the current one. -/
def ice_router (r : Reference) (router : Option Nat) : DeriveResult :=
  let ref := r.changeRouter router
  if ref = r then .self else .fresh ref

/-- ice_locator (lines 906-920). -/
def ice_locator (r : Reference) (locator : Option Nat) : DeriveResult :=
  let ref := r.changeLocator locator
  if ref = r then .self else .fresh ref

/-- ice_collocationOptimized (lines 928-941). -/
def ice_collocationOptimized (r : Reference) (b : Bool) : DeriveResult :=
  if b = r.collocationOptimized then .self else .fresh (r.changeCollocationOptimized b)

/-- ice_invocationTimeout (lines 949-968): IllegalArgument when the value is
below 1 and neither -1 nor -2, then the sharing test. -/
def ice_invocationTimeout (r : Reference) (newTimeout : Int) : Except IceErr DeriveResult :=
  if newTimeout < 1 ∧ newTimeout ≠ -1 ∧ newTimeout ≠ -2 then
    .error (.illegalArgument ("invalid value passed to ice_invocationTimeout: " ++ toString newTimeout))
  else if newTimeout = r.invocationTimeout then
    .ok .self
  else
    .ok (.fresh (r.changeInvocationTimeout newTimeout))

/-- ice_twoway (lines 970-983). -/
def ice_twoway (r : Reference) : DeriveResult :=
  if r.mode = RefMode.ModeTwoway then .self else .fresh (r.changeMode RefMode.ModeTwoway)

/-- ice_oneway (lines 991-1004). -/
def ice_oneway (r : Reference) : DeriveResult :=
  if r.mode = RefMode.ModeOneway then .self else .fresh (r.changeMode RefMode.ModeOneway)

/-- ice_batchOneway (lines 1012-1025). -/
def ice_batchOneway (r : Reference) : DeriveResult :=
  if r.mode = RefMode.ModeBatchOneway then .self else .fresh (r.changeMode RefMode.ModeBatchOneway)

/-- ice_datagram (lines 1033-1046). -/
def ice_datagram (r : Reference) : DeriveResult :=
  if r.mode = RefMode.ModeDatagram then .self else .fresh (r.changeMode RefMode.ModeDatagram)

/-- ice_batchDatagram (lines 1054-1067). -/
def ice_batchDatagram (r : Reference) : DeriveResult :=
  if r.mode = RefMode.ModeBatchDatagram then .self else .fresh (r.changeMode RefMode.ModeBatchDatagram)

/-- ice_compress (lines 1075-1089): the sharing test compares the Reference
returned by changeCompress with the current one. -/
def ice_compress (r : Reference) (b : Bool) : DeriveResult :=
  let ref := r.changeCompress b
  if ref = r then .self else .fresh ref

/-- ice_timeout (lines 1091-1111): IllegalArgument when the value is below 1
and not -1, then the sharing test on changeTimeout. -/
def ice_timeout (r : Reference) (t : Int) : Except IceErr DeriveResult :=
  if t < 1 ∧ t ≠ -1 then
    .error (.illegalArgument ("invalid value passed to ice_timeout: " ++ toString t))
  else
    let ref := r.changeTimeout t
    if ref = r then .ok .self else .ok (.fresh ref)

/-- ice_connectionId (lines 1113-1127). -/
def ice_connectionId (r : Reference) (id : String) : DeriveResult :=
  let ref := r.changeConnectionId id
  if ref = r then .self else .fresh ref

/-- The C++98 Object::__checkTwowayOnly (lines 579-598): on a non-two-way proxy
a synchronous call site throws TwowayOnlyException, an asynchronous one
IceUtil::IllegalArgumentException naming the operation. -/
def checkTwowayOnly98 (r : Reference) (name : String) (sync : Bool) : Except IceErr Unit :=
  if ice_isTwoway r then
    .ok ()
  else if sync then
    .error (.twowayOnly name)
  else
    .error (.illegalArgument (name ++ " can only be called with a twoway proxy"))

/-- The C++11 ObjectPrx::__checkTwowayOnly (lines 128-140): on a non-two-way
proxy it throws IceUtil::IllegalArgumentException; it is only reached from the
asynchronous __ice_isA / __ice_id / __ice_ids entry points. -/
def checkTwowayOnly11 (r : Reference) (name : String) : Except IceErr Unit :=
  if ice_isTwoway r then
    .ok ()
  else
    .error (.illegalArgument (name ++ " can only be called with a twoway proxy"))

/-- The built-in operations whose begin paths the file defines. -/
inductive BuiltinOp
  | opIsA
  | opPing
  | opIds
  | opId
deriving DecidableEq

/-- The wire name constants of lines 41-44. -/
def opWireName : BuiltinOp → String
  | .opIsA => "ice_isA"
  | .opPing => "ice_ping"
  | .opIds => "ice_ids"
  | .opId => "ice_id"

/-- The mode precondition performed at the top of the C++98 begin path of each
built-in operation: __begin_ice_isA (line 202), __begin_ice_ids (line 274) and
__begin_ice_id (line 318) call __checkTwowayOnly with the sync flag of the call
site first; __begin_ice_ping (lines 242-260) performs no check. -/
def beginBuiltinPrecheck (r : Reference) (op : BuiltinOp) (sync : Bool) : Except IceErr Unit :=
  match op with
  | .opPing => .ok ()
  | _ => checkTwowayOnly98 r (opWireName op) sync

/-- The dynamic classification of a C++ exception object as __handleException
tests it: dynamic_cast to LocalException, CloseConnectionException and
ObjectNotExistException. -/
structure ThrownEx where
  isLocal : Bool
  isCloseConnection : Bool
  isObjectNotExist : Bool
deriving DecidableEq

/-- What __handleException ends in: the retry interval returned by the
runtime's checkRetryAfterException, or rethrowing an exception (ex.ice_throw). -/
inductive HandleExOutcome
  | retryAfter (delay : Int)
  | rethrown (e : ThrownEx)
deriving DecidableEq

/-- Object::__handleException (lines 1171-1218), after the initial
__updateRequestHandler(handler, 0) clear (modelled separately by
updateRequestHandler). checkRetryAfterException is the external retry policy:
`some delay` when it returns a delay, `none` when it throws
CommunicatorDestroyedException (then the original exception is rethrown). The
Bool of the result records whether the call was delegated to
checkRetryAfterException at all, i.e. whether retry was permitted. -/
def handleException (checkRetryAfterException : Option Int) (ex : ThrownEx)
    (mode : OperationMode) (sent : Bool) : Bool × HandleExOutcome :=
  if ex.isLocal = true ∧ (sent = false ∨ mode = OperationMode.Nonmutating ∨
      mode = OperationMode.Idempotent ∨ ex.isCloseConnection = true ∨
      ex.isObjectNotExist = true) then
    match checkRetryAfterException with
    | some delay => (true, .retryAfter delay)
    | none => (true, .rethrown ex)
  else
    (false, .rethrown ex)

/-- Object::__setRequestHandler (lines 1246-1259) on the cached-handler slot:
returns the new slot and the handler the invocation must use. Request handlers
are abstracted to Nat handles, the empty slot to none. -/
def setRequestHandler (cacheConnection : Bool) (slot : Option Nat) (handler : Nat) :
    Option Nat × Nat :=
  if cacheConnection then
    match slot with
    | none => (some handler, handler)
    | some h => (some h, h)
  else
    (slot, handler)

/-- Object::__updateRequestHandler (lines 1261-1280) on the cached-handler
slot. `update` is the external RequestHandler::update method of the slotted
handler, applied to the previous and the new handler; the guard requires
cacheConnection, a non-null `previous`, a non-empty slot and a slot differing
from the new handler. -/
def updateRequestHandler (update : Nat → Option Nat → Option Nat → Option Nat)
    (cacheConnection : Bool) (slot previous handler : Option Nat) : Option Nat :=
  if cacheConnection ∧ previous ≠ none then
    match slot with
    | some s => if handler ≠ some s then update s previous handler else slot
    | none => slot
  else
    slot

/-- The update_handler install rule exactly as the specification words it
("if cacheConnection and the slot is non-empty and slot differs from the new
handler, apply slot := slot.update(previous, new); otherwise no-op"), for
comparison with updateRequestHandler from the source. -/
def updateRequestHandlerClaimed (update : Nat → Option Nat → Option Nat → Option Nat)
    (cacheConnection : Bool) (slot previous handler : Option Nat) : Option Nat :=
  if cacheConnection ∧ slot ≠ none ∧ slot ≠ handler then
    match slot with
    | some s => update s previous handler
    | none => slot
  else
    slot

/-- The user-level status carried by a completed reply: AsyncResult::__wait
returns true on user-level success and false when the reply carries a user
exception (whose type id __throwUserException would surface). -/
inductive ReplyStatus
  | replyOK
  | replyUserException (id : String)
deriving DecidableEq

/-- The boolean __wait returns for a completed reply. -/
def replyToBool : ReplyStatus → Bool
  | .replyOK => true
  | .replyUserException _ => false

/-- A completed generic-invoke reply: its user-level status and the raw output
byte encapsulation (bytes abstracted to Nat). -/
structure InvokeReply where
  status : ReplyStatus
  outParams : List Nat
deriving DecidableEq

/-- Object::end_ice_invoke (lines 398-411) and ___end_ice_invoke (lines
436-448): the returned Bool is __wait's user-level status, and the output
encapsulation is copied out of the reply only when the Reference mode is
ModeTwoway; `outEncaps` is the out-parameter's prior content, left as is in
every other mode. -/
def end_ice_invoke (mode : RefMode) (reply : InvokeReply) (outEncaps : List Nat) :
    Bool × List Nat :=
  let ok := replyToBool reply.status
  if mode = RefMode.ModeTwoway then
    (ok, reply.outParams)
  else
    (ok, outEncaps)

/-- Object::end_ice_isA (lines 219-240): when __wait reports a user exception,
__throwUserException's UserException is caught and rethrown as
UnknownUserException carrying the original exception's ice_id; otherwise the
marshalled Bool is read and returned. -/
def end_ice_isA (status : ReplyStatus) (decoded : Bool) : Except IceErr Bool :=
  match status with
  | .replyOK => .ok decoded
  | .replyUserException id => .error (.unknownUserException id)

/-- Object::end_ice_id (lines 333-354), as end_ice_isA with a string result. -/
def end_ice_id (status : ReplyStatus) (decoded : String) : Except IceErr String :=
  match status with
  | .replyOK => .ok decoded
  | .replyUserException id => .error (.unknownUserException id)

/-- Object::end_ice_ids (lines 289-310), as end_ice_isA with a string-sequence
result. -/
def end_ice_ids (status : ReplyStatus) (decoded : List String) : Except IceErr (List String) :=
  match status with
  | .replyOK => .ok decoded
  | .replyUserException id => .error (.unknownUserException id)

/-- Object::__end (lines 492-512), the empty-reply completion used by
end_ice_ping: only in ModeTwoway is the reply examined, a user exception being
rethrown as UnknownUserException with the original's ice_id. -/
def proxyEnd (mode : RefMode) (status : ReplyStatus) : Except IceErr Unit :=
  if mode = RefMode.ModeTwoway then
    match status with
    | .replyOK => .ok ()
    | .replyUserException id => .error (.unknownUserException id)
  else
    .ok ()

/-- IceInternal::checkedCastImpl (lines 157-181). `isA` is the full remote
ice_isA invocation on the facet-derived proxy: it may return a Bool or throw.
A FacetNotExistException from it is swallowed (null result); every other
exception propagates. The NDEBUG-only assert on the false branch is not
modelled (release semantics). -/
def checkedCastImpl (b : Option Reference) (f : String) (typeId : String)
    (isA : Reference → String → Except IceErr Bool) : Except IceErr (Option Reference) :=
  match b with
  | none => .ok none
  | some r =>
      let bb := match ice_facet r f with
        | .self => r
        | .fresh r2 => r2
      match isA bb typeId with
      | .ok true => .ok (some bb)
      | .ok false => .ok none
      | .error IceErr.facetNotExist => .ok none
      | .error e => .error e

/-- Modelled from the spec: Ice::Identity operator< (the slice-generated
comparison is not in the source fragment); the spec describes Identity as the
(name, category) pair, compared lexicographically. Only the null-handle cases
of the comparators are claimed, so the concrete order is inessential. -/
def identityLess (a b : Identity) : Bool :=
  if a.name < b.name then true
  else if b.name < a.name then false
  else if a.category < b.category then true
  else false

/-- Ice::proxyIdentityLess (lines 1320-1339); a proxy handle is an Option
Reference, none being the null handle. -/
def proxyIdentityLess (lhs rhs : Option Reference) : Bool :=
  match lhs, rhs with
  | none, none => false
  | none, some _ => true
  | some _, none => false
  | some l, some r => identityLess (ice_getIdentity l) (ice_getIdentity r)

/-- Ice::proxyIdentityEqual (lines 1341-1360). -/
def proxyIdentityEqual (lhs rhs : Option Reference) : Bool :=
  match lhs, rhs with
  | none, none => true
  | none, some _ => false
  | some _, none => false
  | some l, some r => ice_getIdentity l == ice_getIdentity r

/-- Ice::proxyIdentityAndFacetLess (lines 1362-1405). -/
def proxyIdentityAndFacetLess (lhs rhs : Option Reference) : Bool :=
  match lhs, rhs with
  | none, none => false
  | none, some _ => true
  | some _, none => false
  | some l, some r =>
      if identityLess (ice_getIdentity l) (ice_getIdentity r) then true
      else if identityLess (ice_getIdentity r) (ice_getIdentity l) then false
      else if ice_getFacet l < ice_getFacet r then true
      else if ice_getFacet r < ice_getFacet l then false
      else false

/-- Ice::proxyIdentityAndFacetEqual (lines 1407-1440). -/
def proxyIdentityAndFacetEqual (lhs rhs : Option Reference) : Bool :=
  match lhs, rhs with
  | none, none => true
  | none, some _ => false
  | some _, none => false
  | some l, some r =>
      if ice_getIdentity l = ice_getIdentity r then
        if ice_getFacet l = ice_getFacet r then true else false
      else false

/-- A concrete well-formed Reference used by the concrete-input theorems. -/
def refA : Reference :=
  { identity := { name := "acc", category := "" }
    facet := ""
    mode := RefMode.ModeTwoway
    secure := false
    preferSecure := false
    encoding := { major := 1, minor := 1 }
    compress := some true
    context := [("k", "v")]
    endpoints := [0]
    adapterId := ""
    routerInfo := none
    locatorInfo := none
    cacheConnection := true
    collocationOptimized := true
    endpointSelection := EndpointSelectionType.Random
    locatorCacheTimeout := -1
    invocationTimeout := -1
    timeout := -1
    connectionId := "" }

/-- refA switched to one-way mode, for the two-way precondition theorems. -/
def refB : Reference :=
  { refA with mode := RefMode.ModeOneway }

/-- C1: __handleException delegates to the runtime's checkRetryAfterException
(retry permitted) exactly when the exception is a local exception and (the
request was not sent, or the operation mode is Nonmutating or Idempotent, or
the exception is a CloseConnectionException, or an ObjectNotExistException);
when retry is not permitted the original exception is rethrown unchanged; in
particular, for a mutating (Normal) mode with sent = true, a local exception
that is neither graceful-close nor object-not-exist is rethrown. -/
theorem handleException_retry_classification :
    ∀ (cr : Option Int) (ex : ThrownEx) (mode : OperationMode) (sent : Bool),
      ((handleException cr ex mode sent).1 = true ↔
        (ex.isLocal = true ∧ (sent = false ∨ mode = OperationMode.Nonmutating ∨
          mode = OperationMode.Idempotent ∨ ex.isCloseConnection = true ∨
          ex.isObjectNotExist = true))) ∧
      ((handleException cr ex mode sent).1 = false →
        (handleException cr ex mode sent).2 = HandleExOutcome.rethrown ex) ∧
      (mode = OperationMode.Normal → sent = true → ex.isCloseConnection = false →
        ex.isObjectNotExist = false →
        (handleException cr ex mode sent).2 = HandleExOutcome.rethrown ex) := by
  intro cr ex mode sent
  refine ⟨?_, ?_, ?_⟩
  · cases cr <;>
      by_cases h : ex.isLocal = true ∧ (sent = false ∨ mode = OperationMode.Nonmutating ∨
        mode = OperationMode.Idempotent ∨ ex.isCloseConnection = true ∨
        ex.isObjectNotExist = true) <;>
      simp [handleException, h]
  · cases cr <;>
      by_cases h : ex.isLocal = true ∧ (sent = false ∨ mode = OperationMode.Nonmutating ∨
        mode = OperationMode.Idempotent ∨ ex.isCloseConnection = true ∨
        ex.isObjectNotExist = true) <;>
      simp [handleException, h]
  · intro hm hs hc hn
    simp [handleException, hm, hs, hc, hn]

/-- C5: ice_identity rejects an empty-name identity with IllegalIdentity,
returns the same proxy handle when the identity equals the current one, and
otherwise returns a fresh proxy wrapping the Reference derived by
changeIdentity. -/
theorem ice_identity_spec :
    ∀ (r : Reference) (newIdentity : Identity),
      (newIdentity.name = "" →
        ice_identity r newIdentity = Except.error IceErr.illegalIdentity) ∧
      (newIdentity.name ≠ "" → newIdentity = ice_getIdentity r →
        ice_identity r newIdentity = Except.ok DeriveResult.self) ∧
      (newIdentity.name ≠ "" → newIdentity ≠ ice_getIdentity r →
        ice_identity r newIdentity =
          Except.ok (DeriveResult.fresh (r.changeIdentity newIdentity))) := by
  intro r newIdentity
  refine ⟨?_, ?_, ?_⟩
  · intro h
    simp [ice_identity, h]
  · intro h heq
    simp only [ice_getIdentity] at heq
    subst heq
    simp [ice_identity, h]
  · intro h hne
    simp only [ice_getIdentity] at hne
    simp [ice_identity, h, hne]

/-- C6: ice_locatorCacheTimeout raises IllegalArgument exactly when the value
is below -1, ice_invocationTimeout exactly when the value is below 1 and
neither -1 nor -2, ice_timeout exactly when the value is below 1 and not -1;
in particular -2, 0 and 0 respectively raise, and -1 and 1 succeed where the
ranges admit them. -/
theorem timeout_validation :
    ∀ (r : Reference) (t : Int),
      ((∃ msg, ice_locatorCacheTimeout r t = Except.error (IceErr.illegalArgument msg)) ↔
        t < -1) ∧
      ((∃ msg, ice_invocationTimeout r t = Except.error (IceErr.illegalArgument msg)) ↔
        (t < 1 ∧ t ≠ -1 ∧ t ≠ -2)) ∧
      ((∃ msg, ice_timeout r t = Except.error (IceErr.illegalArgument msg)) ↔
        (t < 1 ∧ t ≠ -1)) ∧
      (∃ msg, ice_locatorCacheTimeout r (-2) = Except.error (IceErr.illegalArgument msg)) ∧
      (∃ msg, ice_invocationTimeout r 0 = Except.error (IceErr.illegalArgument msg)) ∧
      (∃ msg, ice_timeout r 0 = Except.error (IceErr.illegalArgument msg)) ∧
      (∃ d, ice_locatorCacheTimeout r (-1) = Except.ok d) ∧
      (∃ d, ice_locatorCacheTimeout r 1 = Except.ok d) ∧
      (∃ d, ice_invocationTimeout r (-1) = Except.ok d) ∧
      (∃ d, ice_invocationTimeout r (-2) = Except.ok d) ∧
      (∃ d, ice_invocationTimeout r 1 = Except.ok d) ∧
      (∃ d, ice_timeout r (-1) = Except.ok d) ∧
      (∃ d, ice_timeout r 1 = Except.ok d) := by
  intro r t
  refine ⟨?_, ?_, ?_, ?_, ?_, ?_, ?_, ?_, ?_, ?_, ?_, ?_, ?_⟩
  · by_cases hlt : t < -1 <;>
      simp [ice_locatorCacheTimeout, hlt, ite_eq_iff]
  · by_cases hlt : t < 1 ∧ t ≠ -1 ∧ t ≠ -2 <;>
      simp [ice_invocationTimeout, hlt, ite_eq_iff]
  · by_cases hlt : t < 1 ∧ t ≠ -1 <;>
      simp [ice_timeout, hlt, ite_eq_iff]
  · simp [ice_locatorCacheTimeout, (by decide : ((-2 : Int) < -1))]
  · simp [ice_invocationTimeout,
      (by decide : ((0 : Int) < 1 ∧ (0 : Int) ≠ -1 ∧ (0 : Int) ≠ -2))]
  · simp [ice_timeout, (by decide : ((0 : Int) < 1 ∧ (0 : Int) ≠ -1))]
  · by_cases h : r.locatorCacheTimeout = (-1 : Int) <;>
      simp [ice_locatorCacheTimeout, h, eq_comm, (by decide : ¬ ((-1 : Int) < -1))]
  · by_cases h : r.locatorCacheTimeout = (1 : Int) <;>
      simp [ice_locatorCacheTimeout, h, eq_comm, (by decide : ¬ ((1 : Int) < -1))]
  · by_cases h : r.invocationTimeout = (-1 : Int) <;>
      simp [ice_invocationTimeout, h, eq_comm,
        (by decide : ¬ ((-1 : Int) < 1 ∧ (-1 : Int) ≠ -1 ∧ (-1 : Int) ≠ -2))]
  · by_cases h : r.invocationTimeout = (-2 : Int) <;>
      simp [ice_invocationTimeout, h, eq_comm,
        (by decide : ¬ ((-2 : Int) < 1 ∧ (-2 : Int) ≠ -1 ∧ (-2 : Int) ≠ -2))]
  · by_cases h : r.invocationTimeout = (1 : Int) <;>
      simp [ice_invocationTimeout, h, eq_comm,
        (by decide : ¬ ((1 : Int) < 1 ∧ (1 : Int) ≠ -1 ∧ (1 : Int) ≠ -2))]
  · by_cases h : r.changeTimeout (-1) = r <;>
      simp [ice_timeout, h, (by decide : ¬ ((-1 : Int) < 1 ∧ (-1 : Int) ≠ -1))]
  · by_cases h : r.changeTimeout 1 = r <;>
      simp [ice_timeout, h, (by decide : ¬ ((1 : Int) < 1 ∧ (1 : Int) ≠ -1))]

/-- C2 counterexample: ice_context passed the proxy's current context does not
return the same proxy handle; it allocates a fresh proxy (wrapping the
unchanged Reference), so the claimed object-identity law fails for the
ice_context derivation. -/
theorem ice_context_not_self :
    ice_context refA (ice_getContext refA) ≠ DeriveResult.self := by
  simp [ice_context]

/-- C2 (amended): every proxy derivation except ice_context returns the same
proxy handle when called with a value equal to the attribute's current value
(under the attribute's validity precondition where one exists); ice_context
alone always allocates a fresh proxy, even when the new context equals the
current one. -/
theorem derivation_sharing :
    ∀ r : Reference,
      (r.identity.name ≠ "" →
        ice_identity r (ice_getIdentity r) = Except.ok DeriveResult.self) ∧
      ice_facet r (ice_getFacet r) = DeriveResult.self ∧
      ice_adapterId r (ice_getAdapterId r) = DeriveResult.self ∧
      ice_endpoints r (ice_getEndpoints r) = DeriveResult.self ∧
      (-1 ≤ r.locatorCacheTimeout →
        ice_locatorCacheTimeout r (ice_getLocatorCacheTimeout r) = Except.ok DeriveResult.self) ∧
      ice_connectionCached r (ice_isConnectionCached r) = DeriveResult.self ∧
      ice_endpointSelection r (ice_getEndpointSelection r) = DeriveResult.self ∧
      ice_secure r (ice_isSecure r) = DeriveResult.self ∧
      ice_encodingVersion r (ice_getEncodingVersion r) = DeriveResult.self ∧
      ice_preferSecure r (ice_isPreferSecure r) = DeriveResult.self ∧
      ice_router r (ice_getRouter r) = DeriveResult.self ∧
      ice_locator r (ice_getLocator r) = DeriveResult.self ∧
      ice_collocationOptimized r (ice_isCollocationOptimized r) = DeriveResult.self ∧
      ((1 ≤ r.invocationTimeout ∨ r.invocationTimeout = -1 ∨ r.invocationTimeout = -2) →
        ice_invocationTimeout r (ice_getInvocationTimeout r) = Except.ok DeriveResult.self) ∧
      (r.mode = RefMode.ModeTwoway → ice_twoway r = DeriveResult.self) ∧
      (r.mode = RefMode.ModeOneway → ice_oneway r = DeriveResult.self) ∧
      (r.mode = RefMode.ModeBatchOneway → ice_batchOneway r = DeriveResult.self) ∧
      (r.mode = RefMode.ModeDatagram → ice_datagram r = DeriveResult.self) ∧
      (r.mode = RefMode.ModeBatchDatagram → ice_batchDatagram r = DeriveResult.self) ∧
      (∀ b, r.compress = some b → ice_compress r b = DeriveResult.self) ∧
      ((1 ≤ r.timeout ∨ r.timeout = -1) → ice_timeout r r.timeout = Except.ok DeriveResult.self) ∧
      ice_connectionId r (ice_getConnectionId r) = DeriveResult.self ∧
      (∀ c, ice_context r c = DeriveResult.fresh (r.changeContext c)) := by
  intro r
  refine ⟨?_, ?_, ?_, ?_, ?_, ?_, ?_, ?_, ?_, ?_, ?_, ?_, ?_, ?_, ?_, ?_, ?_, ?_, ?_, ?_, ?_,
    ?_, ?_⟩
  · intro h
    simp [ice_identity, ice_getIdentity, h]
  · simp [ice_facet, ice_getFacet]
  · simp [ice_adapterId, ice_getAdapterId]
  · simp [ice_endpoints, ice_getEndpoints]
  · intro h
    have hne : ¬ r.locatorCacheTimeout < -1 := by omega
    simp [ice_locatorCacheTimeout, ice_getLocatorCacheTimeout, hne]
  · simp [ice_connectionCached, ice_isConnectionCached]
  · simp [ice_endpointSelection, ice_getEndpointSelection]
  · simp [ice_secure, ice_isSecure]
  · simp [ice_encodingVersion, ice_getEncodingVersion]
  · simp [ice_preferSecure, ice_isPreferSecure]
  · simp [ice_router, ice_getRouter, Reference.changeRouter]
  · simp [ice_locator, ice_getLocator, Reference.changeLocator]
  · simp [ice_collocationOptimized, ice_isCollocationOptimized]
  · intro h
    have hne : ¬ (r.invocationTimeout < 1 ∧ r.invocationTimeout ≠ -1 ∧
        r.invocationTimeout ≠ -2) := by omega
    simp [ice_invocationTimeout, ice_getInvocationTimeout, hne]
  · intro h
    simp [ice_twoway, h]
  · intro h
    simp [ice_oneway, h]
  · intro h
    simp [ice_batchOneway, h]
  · intro h
    simp [ice_datagram, h]
  · intro h
    simp [ice_batchDatagram, h]
  · intro b hb
    simp [ice_compress, Reference.changeCompress, ← hb]
  · intro h
    have hne : ¬ (r.timeout < 1 ∧ r.timeout ≠ -1) := by omega
    simp [ice_timeout, Reference.changeTimeout]
    intro hc
    omega
  · simp [ice_connectionId, ice_getConnectionId, Reference.changeConnectionId]
  · intro c
    simp [ice_context]

/-- C3: on a proxy whose mode is not ModeTwoway the built-in operations is_a,
id and ids fail their mode precondition, with TwowayOnlyException from a
synchronous call site and IllegalArgumentException from an asynchronous one
(the C++98 check distinguishes through its sync flag; the C++11 check, reached
only from asynchronous entry points, raises IllegalArgument); ice_ping's begin
path performs no mode precondition check at all. -/
theorem twowayOnly_checks :
    ∀ (r : Reference) (name : String),
      (r.mode ≠ RefMode.ModeTwoway →
        ∀ op, op ≠ BuiltinOp.opPing →
          beginBuiltinPrecheck r op true = Except.error (IceErr.twowayOnly (opWireName op)) ∧
          beginBuiltinPrecheck r op false =
            Except.error
              (IceErr.illegalArgument (opWireName op ++ " can only be called with a twoway proxy"))) ∧
      (r.mode ≠ RefMode.ModeTwoway →
        checkTwowayOnly11 r name =
          Except.error (IceErr.illegalArgument (name ++ " can only be called with a twoway proxy"))) ∧
      (r.mode = RefMode.ModeTwoway →
        ∀ op sync, beginBuiltinPrecheck r op sync = Except.ok ()) ∧
      (∀ sync, beginBuiltinPrecheck r BuiltinOp.opPing sync = Except.ok ()) := by
  intro r name
  refine ⟨?_, ?_, ?_, ?_⟩
  · intro h op hop
    cases op <;>
      simp_all [beginBuiltinPrecheck, checkTwowayOnly98, ice_isTwoway, opWireName]
  · intro h
    simp [checkTwowayOnly11, ice_isTwoway, h]
  · intro h op sync
    cases op <;> simp [beginBuiltinPrecheck, checkTwowayOnly98, ice_isTwoway, h]
  · intro sync
    rfl

/-- C4 counterexample: with connection caching on, a non-empty slot and a new
handler differing from the slot, but a null `previous`, the source's
__updateRequestHandler is a no-op while the claimed rule applies the slot's
update method; the two disagree at this input. -/
theorem updateRequestHandler_null_previous_cex :
    updateRequestHandler (fun _ _ h => h) true (some 1) none (some 2) ≠
      updateRequestHandlerClaimed (fun _ _ h => h) true (some 1) none (some 2) := by
  decide

/-- C4 (amended): __setRequestHandler returns its argument verbatim without
installing when cacheConnection is false, and otherwise installs the argument
only into an empty slot and returns the slot's value (first-writer-wins);
__updateRequestHandler applies slot := slot.update(previous, new) exactly when
cacheConnection is true, `previous` is non-null, the slot is non-empty and the
slot differs from the new handler, and is a no-op otherwise. -/
theorem requestHandler_install_rules :
    ∀ (update : Nat → Option Nat → Option Nat → Option Nat) (cacheConnection : Bool)
      (slot previous handler : Option Nat) (h : Nat),
      setRequestHandler false slot h = (slot, h) ∧
      setRequestHandler true none h = (some h, h) ∧
      (∀ g, setRequestHandler true (some g) h = (some g, g)) ∧
      ((cacheConnection = false ∨ previous = none ∨ slot = none ∨ slot = handler) →
        updateRequestHandler update cacheConnection slot previous handler = slot) ∧
      (∀ s p, cacheConnection = true → previous = some p → slot = some s →
        handler ≠ some s →
        updateRequestHandler update cacheConnection slot previous handler =
          update s previous handler) := by
  intro update cacheConnection slot previous handler h
  refine ⟨rfl, rfl, fun g => rfl, ?_, ?_⟩
  · intro hcase
    rcases hcase with hc | hp | hs | hsh
    · simp [updateRequestHandler, hc]
    · simp [updateRequestHandler, hp]
    · subst hs
      simp [updateRequestHandler]
    · subst hsh
      rcases slot with _ | s
      · simp [updateRequestHandler]
      · simp [updateRequestHandler]
  · intro s p hc hp hs hh
    subst hc
    subst hp
    subst hs
    simp [updateRequestHandler, hh]

/-- C7: end_ice_invoke returns true exactly when the reply carried a user-level
success and false exactly when it carried a user exception, and it copies the
output byte encapsulation out of the reply only when the Reference mode is
ModeTwoway, leaving the out-parameter untouched in every other mode. -/
theorem end_ice_invoke_spec :
    ∀ (mode : RefMode) (reply : InvokeReply) (outEncaps : List Nat),
      ((end_ice_invoke mode reply outEncaps).1 = true ↔
        reply.status = ReplyStatus.replyOK) ∧
      ((end_ice_invoke mode reply outEncaps).1 = false ↔
        ∃ id, reply.status = ReplyStatus.replyUserException id) ∧
      (mode = RefMode.ModeTwoway →
        (end_ice_invoke mode reply outEncaps).2 = reply.outParams) ∧
      (mode ≠ RefMode.ModeTwoway →
        (end_ice_invoke mode reply outEncaps).2 = outEncaps) := by
  intro mode reply outEncaps
  obtain ⟨status, outParams⟩ := reply
  refine ⟨?_, ?_, ?_, ?_⟩
  · cases status <;> by_cases h : mode = RefMode.ModeTwoway <;>
      simp [end_ice_invoke, replyToBool, h]
  · cases status <;> by_cases h : mode = RefMode.ModeTwoway <;>
      simp [end_ice_invoke, replyToBool, h]
  · intro h
    simp [end_ice_invoke, h]
  · intro h
    simp [end_ice_invoke, h]

/-- C8: proxyIdentityEqual holds exactly when both handles are null or both are
non-null with equal identities; proxyIdentityAndFacetEqual additionally
requires equal facets; in the two less-than comparators a null handle compares
less than any non-null handle and two null handles compare equal (neither is
less than the other). -/
theorem proxy_identity_comparators :
    (∀ lhs rhs : Option Reference,
      (proxyIdentityEqual lhs rhs = true ↔
        ((lhs = none ∧ rhs = none) ∨
         (∃ l r, lhs = some l ∧ rhs = some r ∧ ice_getIdentity l = ice_getIdentity r)))) ∧
    (∀ lhs rhs : Option Reference,
      (proxyIdentityAndFacetEqual lhs rhs = true ↔
        ((lhs = none ∧ rhs = none) ∨
         (∃ l r, lhs = some l ∧ rhs = some r ∧ ice_getIdentity l = ice_getIdentity r ∧
           ice_getFacet l = ice_getFacet r)))) ∧
    (∀ r : Reference, proxyIdentityLess none (some r) = true) ∧
    (∀ l : Reference, proxyIdentityLess (some l) none = false) ∧
    proxyIdentityLess none none = false ∧
    (∀ r : Reference, proxyIdentityAndFacetLess none (some r) = true) ∧
    (∀ l : Reference, proxyIdentityAndFacetLess (some l) none = false) ∧
    proxyIdentityAndFacetLess none none = false := by
  refine ⟨?_, ?_, fun r => rfl, fun l => rfl, rfl, fun r => rfl, fun l => rfl, rfl⟩
  · intro lhs rhs
    rcases lhs with _ | l <;> rcases rhs with _ | r <;>
      simp [proxyIdentityEqual]
  · intro lhs rhs
    rcases lhs with _ | l <;> rcases rhs with _ | r <;>
      simp [proxyIdentityAndFacetEqual]

/-- C9: on the built-in two-way completion paths (end_ice_isA, end_ice_id,
end_ice_ids and the empty-reply __end used by ping in two-way mode) a reply
carrying a user exception is rethrown wrapped as UnknownUserException carrying
the original exception's type id; every error these paths produce is of that
wrapped form, so a user exception is never delivered unwrapped (and the wrapped
exception is thrown to the caller, not offered to the retry machinery). -/
theorem user_exception_wrapping :
    ∀ (id : String) (b : Bool) (s : String) (l : List String),
      end_ice_isA (ReplyStatus.replyUserException id) b =
        Except.error (IceErr.unknownUserException id) ∧
      end_ice_id (ReplyStatus.replyUserException id) s =
        Except.error (IceErr.unknownUserException id) ∧
      end_ice_ids (ReplyStatus.replyUserException id) l =
        Except.error (IceErr.unknownUserException id) ∧
      proxyEnd RefMode.ModeTwoway (ReplyStatus.replyUserException id) =
        Except.error (IceErr.unknownUserException id) ∧
      (∀ (st : ReplyStatus) (e : IceErr), end_ice_isA st b = Except.error e →
        ∃ uid, st = ReplyStatus.replyUserException uid ∧ e = IceErr.unknownUserException uid) ∧
      (∀ (st : ReplyStatus) (e : IceErr), proxyEnd RefMode.ModeTwoway st = Except.error e →
        ∃ uid, st = ReplyStatus.replyUserException uid ∧ e = IceErr.unknownUserException uid) := by
  intro id b s l
  refine ⟨rfl, rfl, rfl, rfl, ?_, ?_⟩
  · intro st e he
    cases st with
    | replyOK => simp [end_ice_isA] at he
    | replyUserException uid =>
        simp [end_ice_isA] at he
        exact ⟨uid, rfl, by simp [← he]⟩
  · intro st e he
    cases st with
    | replyOK => simp [proxyEnd] at he
    | replyUserException uid =>
        simp [proxyEnd] at he
        exact ⟨uid, rfl, by simp [← he]⟩

/-- C10: checkedCastImpl returns null on a null proxy; otherwise it derives the
proxy for the requested facet (the same proxy when the facet is unchanged) and
returns it when the remote ice_isA reports true, returns null when ice_isA
reports false or throws FacetNotExistException (which it swallows), and lets
every other exception from ice_isA propagate. -/
theorem checkedCastImpl_spec :
    ∀ (b : Option Reference) (f typeId : String)
      (isA : Reference → String → Except IceErr Bool) (r : Reference),
      (b = none → checkedCastImpl b f typeId isA = Except.ok none) ∧
      (let bb := match ice_facet r f with
        | DeriveResult.self => r
        | DeriveResult.fresh r2 => r2
       (isA bb typeId = Except.ok true →
         checkedCastImpl (some r) f typeId isA = Except.ok (some bb)) ∧
       (isA bb typeId = Except.ok false →
         checkedCastImpl (some r) f typeId isA = Except.ok none) ∧
       (isA bb typeId = Except.error IceErr.facetNotExist →
         checkedCastImpl (some r) f typeId isA = Except.ok none) ∧
       (∀ e, e ≠ IceErr.facetNotExist → isA bb typeId = Except.error e →
         checkedCastImpl (some r) f typeId isA = Except.error e)) := by
  intro b f typeId isA r
  constructor
  · intro hb
    subst hb
    rfl
  · refine ⟨?_, ?_, ?_, ?_⟩
    · intro h
      simp [checkedCastImpl, h]
    · intro h
      simp [checkedCastImpl, h]
    · intro h
      simp [checkedCastImpl, h]
    · intro e he h
      cases e <;> simp_all [checkedCastImpl]
